import Mathlib

/-!
# Verification of the multiprofile backend (src/index.js)

A shallow embedding of the Express handlers in `src/index.js`:
the startup environment check, the `authenticateToken` middleware,
the `POST /api/login` handler and the `GET /api/services` handler,
together with proofs of the specified properties.

Conventions of the embedding:
* The Supabase store is a pure value `DB` (lists of rows); each supabase
  call is modelled by a query over those lists, `.single()` as requiring
  the filtered row set to be exactly one row, and the `users(*)` embed as
  a lookup of the owning user row.
* Handlers return the HTTP response, the store state after the call, and
  the list of store operations performed (so that absence of lookups and
  of mutations is provable).
* Timestamps are integers (milliseconds since epoch, as `Date.now()`);
  `bcrypt.compare` and `uuidv4()` are parameters of the login function
  (external library calls).
* JavaScript falsiness of the string-valued inputs involved
  (`undefined` or `""`) is modelled by `isFalsy` on `Option String`.
-/

set_option autoImplicit false

namespace MultiProfile

/-- A JSON value, the shape of every response body produced by the server. -/
inductive JsonVal where
  | str (s : String)
  | num (n : Int)
  | bool (b : Bool)
  | null
  | obj (fields : List (String × JsonVal))
  | arr (items : List JsonVal)
  deriving Repr

/-- An HTTP response: status code plus JSON body (`res.status(c).json(b)`;
`res.json(b)` alone is status 200). -/
structure Response where
  status : Nat
  body : JsonVal
  deriving Repr

/-- The error bodies the server produces: `{ error: msg }`. -/
def errBody (msg : String) : JsonVal := .obj [("error", .str msg)]

/-- A row of the `users` table (the fields `src/index.js` reads). -/
structure User where
  id : Nat
  email : String
  password_hash : String
  full_name : String
  subscription_type : String
  deriving Repr

/-- A row of the `user_sessions` table (the fields `src/index.js` writes
and filters on).  `expires_at` is a millisecond timestamp. -/
structure Session where
  user_id : Nat
  session_token : String
  device_id : Option String
  ip_address : String
  user_agent : Option String
  expires_at : Int
  is_active : Bool
  deriving Repr

/-- A row of the `user_services` table. -/
structure Service where
  id : Nat
  user_id : Nat
  name : String
  is_active : Bool
  created_at : Int
  deriving Repr

/-- The store state: the tables `src/index.js` touches. -/
structure DB where
  users : List User
  sessions : List Session
  services : List Service
  deriving Repr

/-- One supabase call, recorded so the theorems can speak about which
store operations a handler performed. -/
inductive StoreOp where
  | selectUser (email : String)
  | selectSession (token : String)
  | insertSession (s : Session)
  | selectServices (user_id : Nat)
  deriving Repr

/-- Whether a store operation writes to the store. -/
def StoreOp.isMutation : StoreOp → Bool
  | .insertSession _ => true
  | _ => false

/-- JavaScript falsiness of an optional string: `undefined` or `""`. -/
def isFalsy : Option String → Bool
  | none => true
  | some s => s == ""

/-- JavaScript `String.prototype.split` with a one-character separator:
splits on every occurrence, keeping empty pieces. -/
def splitChar (c : Char) : List Char → List (List Char)
  | [] => [[]]
  | x :: xs =>
    if x = c then [] :: splitChar c xs
    else
      match splitChar c xs with
      | [] => [[x]]
      | y :: ys => (x :: y) :: ys

/-- `const token = authHeader && authHeader.split(' ')[1]` followed by the
falsiness test `if (!token)`: the token is the second space-delimited part
of the Authorization header, and a missing header, a header with fewer
than two parts, or an empty second part all leave no token. -/
def extractToken : Option String → Option String
  | none => none
  | some h =>
    match (splitChar ' ' h.data).get? 1 with
    | none => none
    | some t => if t.isEmpty then none else some (String.mk t)

/-- The outcome of the `authenticateToken` middleware: an error response,
or the resolved rows attached to the request context (`req.user` is the
`users(*)` embed, which is `null` when the owning user row is absent). -/
inductive AuthResult where
  | fail (resp : Response)
  | success (user : Option User) (session : Session)
  deriving Repr

/-- The `authenticateToken` middleware of `src/index.js`:
extract the bearer token (401 when absent), then select the single
`user_sessions` row with that `session_token` and `is_active = true`,
joined to its owning user (403 when no such single row), and attach the
resolved rows.  Note the query filters only on token and active flag. -/
def authenticateToken (db : DB) (authHeader : Option String) :
    AuthResult × DB × List StoreOp :=
  match extractToken authHeader with
  | none => (.fail ⟨401, errBody "Token de acesso necessário"⟩, db, [])
  | some tok =>
    match db.sessions.filter (fun s => s.session_token == tok && s.is_active) with
    | [s] => (.success (db.users.find? (fun u => u.id == s.user_id)) s, db,
        [.selectSession tok])
    | _ => (.fail ⟨403, errBody "Token inválido ou expirado"⟩, db,
        [.selectSession tok])

/-- The environment variables the startup code reads. -/
structure Env where
  supabaseUrl : Option String
  supabaseAnonKey : Option String
  supabaseServiceKey : Option String
  deriving Repr

/-- The argument check of the `@supabase/supabase-js` client constructor:
`createClient(url, key)` throws `supabaseUrl is required.` respectively
`supabaseKey is required.` when the corresponding argument is falsy, so
construction succeeds exactly when both are non-falsy. -/
def createClientOk (url key : Option String) : Bool :=
  !isFalsy url && !isFalsy key

/-- How far module load of `src/index.js` gets. -/
inductive StartupOutcome where
  /-- The explicit environment guard ran `process.exit(1)`. -/
  | exitMissingEnv
  /-- A `createClient` call threw; the uncaught exception at module load
  crashes the process. -/
  | throwCreateClient
  /-- Startup reaches `app.listen` and the server serves requests. -/
  | serving
  deriving Repr, DecidableEq

/-- The startup sequence of `src/index.js`: first the guard
`if (!supabaseUrl || !supabaseKey) { ... process.exit(1); }`, then the
two client constructions `createClient(supabaseUrl, supabaseKey)` and
`createClient(supabaseUrl, supabaseServiceKey)`, and only then
`app.listen`. -/
def startup (env : Env) : StartupOutcome :=
  if isFalsy env.supabaseUrl || isFalsy env.supabaseAnonKey then
    .exitMissingEnv
  else if !createClientOk env.supabaseUrl env.supabaseAnonKey
      || !createClientOk env.supabaseUrl env.supabaseServiceKey then
    .throwCreateClient
  else .serving

/-- The body of a `POST /api/login` request plus the caller metadata the
handler reads (`req.ip`, `req.get('User-Agent')`). -/
structure LoginRequest where
  email : Option String
  password : Option String
  device_id : Option String
  ip : String
  userAgent : Option String
  deriving Repr

/-- The sanitized user projection the login response carries:
`{ id, email, full_name, subscription_type }`. -/
def userProjection (u : User) : JsonVal :=
  .obj [("id", .num (u.id : Int)), ("email", .str u.email),
    ("full_name", .str u.full_name),
    ("subscription_type", .str u.subscription_type)]

/-- Milliseconds in the 7-day session lifetime: `7 * 24 * 60 * 60 * 1000`. -/
def sevenDaysMs : Int := 7 * 24 * 60 * 60 * 1000

/-- The session row the login handler inserts. -/
def newSession (now : Int) (tok : String) (req : LoginRequest) (u : User) :
    Session where
  user_id := u.id
  session_token := tok
  device_id := if isFalsy req.device_id then none else req.device_id
  ip_address := req.ip
  user_agent := req.userAgent
  expires_at := now + sevenDaysMs
  is_active := true

/-- The `POST /api/login` handler of `src/index.js`.
`bc` is `bcrypt.compare` (password, stored hash), `now` is `Date.now()`,
`tok` is the fresh `uuidv4()`.  Validation (400) precedes every store
operation; an email matching no single user row and a failed hash
comparison both answer with the same generic 401; on success one session
row is inserted and the response carries the raw token and the sanitized
user projection. -/
def login (bc : String → String → Bool) (now : Int) (tok : String)
    (db : DB) (req : LoginRequest) : Response × DB × List StoreOp :=
  if isFalsy req.email || isFalsy req.password then
    (⟨400, errBody "Email e senha são obrigatórios"⟩, db, [])
  else
    match db.users.filter (fun u => u.email == req.email.getD "") with
    | [user] =>
      if bc (req.password.getD "") user.password_hash then
        (⟨200, .obj [("success", .bool true), ("token", .str tok),
            ("user", userProjection user)]⟩,
          { db with sessions := db.sessions ++ [newSession now tok req user] },
          [.selectUser (req.email.getD ""),
            .insertSession (newSession now tok req user)])
      else (⟨401, errBody "Credenciais inválidas"⟩, db,
        [.selectUser (req.email.getD "")])
    | _ => (⟨401, errBody "Credenciais inválidas"⟩, db,
      [.selectUser (req.email.getD "")])

/-- Insert a service row into a list sorted by `created_at` descending. -/
def insertByCreatedDesc (s : Service) : List Service → List Service
  | [] => [s]
  | x :: xs =>
    if x.created_at ≤ s.created_at then s :: x :: xs
    else x :: insertByCreatedDesc s xs

/-- Sort service rows by `created_at` descending
(`.order('created_at', { ascending: false })`). -/
def sortByCreatedDesc : List Service → List Service
  | [] => []
  | x :: xs => insertByCreatedDesc x (sortByCreatedDesc xs)

/-- The rows the `GET /api/services` query returns: the user's active
service rows, newest first. -/
def servicesRows (db : DB) (uid : Nat) : List Service :=
  sortByCreatedDesc (db.services.filter (fun sv => sv.user_id == uid && sv.is_active))

/-- Serialization of a service row (`select('*')` returns the whole row). -/
def serviceToJson (s : Service) : JsonVal :=
  .obj [("id", .num (s.id : Int)), ("user_id", .num (s.user_id : Int)),
    ("name", .str s.name), ("is_active", .bool s.is_active),
    ("created_at", .num s.created_at)]

/-- The `GET /api/services` handler: run `authenticateToken`; on failure
forward its response; on success list the resolved user's active service
rows scoped by `req.user.id` (when the joined user is `null`, reading
`.id` throws and the catch answers 500). -/
def getServices (db : DB) (authHeader : Option String) :
    Response × DB × List StoreOp :=
  match authenticateToken db authHeader with
  | (.fail r, db', ops) => (r, db', ops)
  | (.success none _, db', ops) =>
    (⟨500, errBody "Erro interno do servidor"⟩, db', ops)
  | (.success (some u) _, db', ops) =>
    (⟨200, .obj [("success", .bool true),
        ("services", .arr ((servicesRows db' u.id).map serviceToJson))]⟩,
      db', ops ++ [.selectServices u.id])

/-- The shape of a JSON value: the tree with all atoms erased, so that two
bodies of the same shape are indistinguishable structurally. -/
inductive JShape where
  | str | num | bool | null
  | obj (fields : List (String × JShape))
  | arr (items : List JShape)
  deriving Repr

mutual

/-- Erase a JSON value to its shape. -/
def shapeOf : JsonVal → JShape
  | .str _ => .str
  | .num _ => .num
  | .bool _ => .bool
  | .null => .null
  | .obj fs => .obj (shapeOfFields fs)
  | .arr xs => .arr (shapeOfItems xs)

/-- Erase the fields of a JSON object to their shapes. -/
def shapeOfFields : List (String × JsonVal) → List (String × JShape)
  | [] => []
  | (k, v) :: rest => (k, shapeOf v) :: shapeOfFields rest

/-- Erase the items of a JSON array to their shapes. -/
def shapeOfItems : List JsonVal → List JShape
  | [] => []
  | v :: rest => shapeOf v :: shapeOfItems rest

end

mutual

/-- Whether a key occurs anywhere in a JSON value. -/
def jsonHasKey (k : String) : JsonVal → Bool
  | .obj fs => fieldsHaveKey k fs
  | .arr xs => itemsHaveKey k xs
  | _ => false

/-- Whether a key occurs in a field list or below it. -/
def fieldsHaveKey (k : String) : List (String × JsonVal) → Bool
  | [] => false
  | (k', v) :: rest => k' == k || jsonHasKey k v || fieldsHaveKey k rest

/-- Whether a key occurs below any item of a list. -/
def itemsHaveKey (k : String) : List JsonVal → Bool
  | [] => false
  | v :: rest => jsonHasKey k v || itemsHaveKey k rest

end

/-- The status of a failed authentication, `none` on success. -/
def failStatus : AuthResult → Option Nat
  | .fail r => some r.status
  | .success _ _ => none

/-! ### Concrete fixtures used in counterexamples and witnesses -/

/-- A concrete user row. -/
def exUserA : User :=
  { id := 1, email := "a@x.com", password_hash := "hashA",
    full_name := "Alice A", subscription_type := "free" }

/-- A second concrete user row, distinct from `exUserA`. -/
def exUserB : User :=
  { id := 2, email := "b@x.com", password_hash := "hashB",
    full_name := "Bob B", subscription_type := "pro" }

/-- A concrete session owned by `exUserA`: active flag on, but its expiry
timestamp (0) is in the past relative to `exNow`. -/
def exSession : Session :=
  { user_id := 1, session_token := "tok", device_id := none,
    ip_address := "10.0.0.1", user_agent := none,
    expires_at := 0, is_active := true }

/-- A concrete service row owned by `exUserA`. -/
def exServiceA : Service :=
  { id := 10, user_id := 1, name := "svcA", is_active := true, created_at := 100 }

/-- A concrete service row owned by `exUserB`. -/
def exServiceB : Service :=
  { id := 11, user_id := 2, name := "svcB", is_active := true, created_at := 200 }

/-- A concrete store state. -/
def exDB : DB :=
  { users := [exUserA, exUserB], sessions := [exSession],
    services := [exServiceA, exServiceB] }

/-- The current time of the concrete scenario, strictly after
`exSession.expires_at`. -/
def exNow : Int := 1000

/-- An environment where the URL and the anon key are set but the
privileged service-role key is absent. -/
def envNoServiceKey : Env :=
  { supabaseUrl := some "https://db.example", supabaseAnonKey := some "anon",
    supabaseServiceKey := none }

/-! ### Helper lemmas -/

theorem splitChar_no_sep {c : Char} : ∀ {l : List Char}, (∀ x ∈ l, x ≠ c) →
    splitChar c l = [l]
  | [], _ => rfl
  | x :: xs, h => by
    have hx : x ≠ c := h x (List.mem_cons_self x xs)
    have ih := splitChar_no_sep (fun y hy => h y (List.mem_cons_of_mem x hy))
    simp [splitChar, hx, ih]

theorem splitChar_append {c : Char} : ∀ {w : List Char} (rest : List Char),
    (∀ x ∈ w, x ≠ c) → splitChar c (w ++ c :: rest) = w :: splitChar c rest
  | [], rest, _ => by simp [splitChar]
  | x :: xs, rest, h => by
    have hx : x ≠ c := h x (List.mem_cons_self x xs)
    have ih := splitChar_append rest (fun y hy => h y (List.mem_cons_of_mem x hy))
    simp [splitChar, hx, ih]

theorem mem_insertByCreatedDesc {x s : Service} : ∀ {l : List Service},
    x ∈ insertByCreatedDesc s l ↔ x = s ∨ x ∈ l
  | [] => by simp [insertByCreatedDesc]
  | y :: ys => by
    by_cases h : y.created_at ≤ s.created_at
    · simp [insertByCreatedDesc, h]
    · simp only [insertByCreatedDesc, if_neg h, List.mem_cons,
        @mem_insertByCreatedDesc x s ys]
      tauto

theorem mem_sortByCreatedDesc {x : Service} : ∀ {l : List Service},
    x ∈ sortByCreatedDesc l ↔ x ∈ l
  | [] => Iff.rfl
  | y :: ys => by
    simp only [sortByCreatedDesc, mem_insertByCreatedDesc,
      @mem_sortByCreatedDesc x ys, List.mem_cons]

theorem mem_servicesRows {db : DB} {uid : Nat} {sv : Service}
    (h : sv ∈ servicesRows db uid) : sv.user_id = uid := by
  have hm := mem_sortByCreatedDesc.mp h
  have := List.of_mem_filter hm
  simp only [Bool.and_eq_true, beq_iff_eq] at this
  exact this.1

/-- In every branch, `authenticateToken` hands the store back unchanged. -/
theorem authenticateToken_db_unchanged (db : DB) (h : Option String) :
    (authenticateToken db h).2.1 = db := by
  cases hE : extractToken h with
  | none => simp [authenticateToken, hE]
  | some tok =>
    rcases hf : db.sessions.filter
        (fun s => s.session_token == tok && s.is_active) with _ | ⟨a, _ | ⟨b, l⟩⟩ <;>
      simp [authenticateToken, hE, hf]

/-- In every branch, `authenticateToken` performs no mutating store
operation. -/
theorem authenticateToken_ops_readonly (db : DB) (h : Option String) :
    ∀ op ∈ (authenticateToken db h).2.2, op.isMutation = false := by
  cases hE : extractToken h with
  | none => simp [authenticateToken, hE]
  | some tok =>
    rcases hf : db.sessions.filter
        (fun s => s.session_token == tok && s.is_active) with _ | ⟨a, _ | ⟨b, l⟩⟩ <;>
      simp [authenticateToken, hE, hf, StoreOp.isMutation]

/-! ### Claim theorems -/

/-- C1. The spec requires `authenticateToken` to reject a session whose
expiry timestamp is in the past even when its active flag is true.  The
code does not: on the concrete store `exDB`, the session `exSession` is
active but already expired at time `exNow`, yet authentication with its
token succeeds and attaches the session to the request.  This evaluates
the code at the failing input showing the divergence from the claim. -/
theorem C1_expired_active_session_accepted :
    exSession.is_active = true ∧ exSession.expires_at < exNow ∧
      (authenticateToken exDB (some "Bearer tok")).1
        = AuthResult.success (some exUserA) exSession :=
  ⟨rfl, by decide, rfl⟩

/-- C2 counterexample. The claim says the missing-credential response and
the invalid/expired-token response carry the same HTTP status; on the
concrete store they carry 401 and 403 respectively, so the statuses
differ. -/
theorem C2_status_differs :
    failStatus (authenticateToken exDB none).1
      ≠ failStatus (authenticateToken exDB (some "Bearer wrong")).1 := by
  decide

/-- C2 (amended). The missing-credential response and the no-matching-
active-session response have the same body shape, a one-field object
`\x7b error: <string> \x7d`, but their HTTP statuses differ: 401 for a
missing credential and 403 for an invalid or expired token. -/
theorem C2_missing_vs_invalid_same_shape (db : DB) (h1 h2 : Option String)
    (t : String)
    (he : extractToken h1 = none) (ht : extractToken h2 = some t)
    (hm : (db.sessions.filter
      (fun s => s.session_token == t && s.is_active)).length ≠ 1) :
    (authenticateToken db h1).1
        = .fail ⟨401, errBody "Token de acesso necessário"⟩ ∧
      (authenticateToken db h2).1
        = .fail ⟨403, errBody "Token inválido ou expirado"⟩ ∧
      shapeOf (errBody "Token de acesso necessário")
        = shapeOf (errBody "Token inválido ou expirado") := by
  refine ⟨by simp [authenticateToken, he], ?_, rfl⟩
  rcases hf : db.sessions.filter (fun s => s.session_token == t && s.is_active)
      with _ | ⟨a, _ | ⟨b, l⟩⟩
  · simp [authenticateToken, ht, hf]
  · rw [hf] at hm; simp at hm
  · simp [authenticateToken, ht, hf]

/-- C2 witness: the amended statement at the concrete store, with a
missing header and a token matching no session. -/
theorem C2_missing_vs_invalid_same_shape_witness :
    (authenticateToken exDB none).1
        = .fail ⟨401, errBody "Token de acesso necessário"⟩ ∧
      (authenticateToken exDB (some "Bearer wrong")).1
        = .fail ⟨403, errBody "Token inválido ou expirado"⟩ ∧
      shapeOf (errBody "Token de acesso necessário")
        = shapeOf (errBody "Token inválido ou expirado") :=
  C2_missing_vs_invalid_same_shape exDB none (some "Bearer wrong") "wrong"
    rfl rfl (by decide)

/-- C3. If the store endpoint URL or either of the two credential keys
is absent from the environment, the process refuses to start: a missing
URL or anon key trips the explicit guard (`process.exit(1)`), and a
missing service-role key makes the client constructor on line 24 throw
at module load, in every case before `app.listen` can serve requests. -/
theorem C3_missing_env_refuses_startup (env : Env)
    (h : isFalsy env.supabaseUrl = true ∨ isFalsy env.supabaseAnonKey = true
      ∨ isFalsy env.supabaseServiceKey = true) :
    startup env ≠ .serving := by
  unfold startup
  rcases h with h | h | h
  · simp [h]
  · simp [h]
  · by_cases h1 : (isFalsy env.supabaseUrl || isFalsy env.supabaseAnonKey) = true
    · simp [h1]
    · simp [h1, createClientOk, h]

/-- C3 witness: with the URL and anon key set but the service-role key
absent, startup does not reach the serving state. -/
theorem C3_missing_env_refuses_startup_witness :
    startup envNoServiceKey ≠ .serving :=
  C3_missing_env_refuses_startup envNoServiceKey (Or.inr (Or.inr rfl))

/-- C4. Whenever validation passes but either no single user row has the
submitted email or the hash comparison fails, the login handler answers
with the identical generic 401 response, leaves the store untouched, and
performed only the user lookup — the two failure causes are externally
indistinguishable. -/
theorem C4_login_generic_invalid_credentials
    (bc : String → String → Bool) (now : Int) (tok : String) (db : DB)
    (req : LoginRequest)
    (he : isFalsy req.email = false) (hp : isFalsy req.password = false)
    (hfail :
      (db.users.filter (fun u => u.email == req.email.getD "")).length ≠ 1 ∨
        ∃ u, db.users.filter (fun u' => u'.email == req.email.getD "") = [u] ∧
          bc (req.password.getD "") u.password_hash = false) :
    login bc now tok db req
      = (⟨401, errBody "Credenciais inválidas"⟩, db,
          [.selectUser (req.email.getD "")]) := by
  rcases hf : db.users.filter (fun u => u.email == req.email.getD "")
      with _ | ⟨a, _ | ⟨b, l⟩⟩
  · simp [login, he, hp, hf]
  · rcases hfail with hlen | ⟨u, hu, hbc⟩
    · rw [hf] at hlen; simp at hlen
    · rw [hf] at hu
      injection hu with h1 _
      subst h1
      simp [login, he, hp, hf, hbc]
  · simp [login, he, hp, hf]

/-- C4 witness: on the concrete store, an unknown email and a known email
with a failing hash comparison produce the very same 401 response. -/
theorem C4_login_generic_invalid_credentials_witness :
    login (fun _ _ => false) exNow "newtok" exDB
        { email := some "nobody@x.com", password := some "pw",
          device_id := none, ip := "9.9.9.9", userAgent := none }
      = (⟨401, errBody "Credenciais inválidas"⟩, exDB,
          [.selectUser "nobody@x.com"]) ∧
    login (fun _ _ => false) exNow "newtok" exDB
        { email := some "a@x.com", password := some "wrongpw",
          device_id := none, ip := "9.9.9.9", userAgent := none }
      = (⟨401, errBody "Credenciais inválidas"⟩, exDB,
          [.selectUser "a@x.com"]) :=
  ⟨C4_login_generic_invalid_credentials _ _ _ _ _ rfl rfl (Or.inl (by decide)),
    C4_login_generic_invalid_credentials _ _ _ _ _ rfl rfl
      (Or.inr ⟨exUserA, rfl, rfl⟩)⟩

/-- C5. When authentication resolves the request to user `A`, the
`GET /api/services` response lists exactly the rows of `servicesRows db
A.id`, every one of those rows belongs to `A`, and none belongs to any
distinct user `B` — the listing never returns another user's rows. -/
theorem C5_services_scoped_to_user (db : DB) (h : Option String)
    (A B : User) (s : Session)
    (hAB : A.id ≠ B.id)
    (hauth : (authenticateToken db h).1 = .success (some A) s) :
    (getServices db h).1
        = ⟨200, .obj [("success", .bool true),
            ("services", .arr ((servicesRows db A.id).map serviceToJson))]⟩ ∧
      (∀ sv ∈ servicesRows db A.id, sv.user_id = A.id) ∧
      (∀ sv ∈ servicesRows db A.id, sv.user_id ≠ B.id) := by
  have hdb := authenticateToken_db_unchanged db h
  refine ⟨?_, fun sv hm => mem_servicesRows hm, fun sv hm => by
    rw [mem_servicesRows hm]; exact hAB⟩
  rcases hT : authenticateToken db h with ⟨r, db', ops⟩
  rw [hT] at hauth hdb
  simp only at hauth hdb
  subst hauth hdb
  simp [getServices, hT]

/-- C5 witness: on the concrete store, authenticating as `exUserA` lists
only `exUserA`'s rows. -/
theorem C5_services_scoped_to_user_witness :
    (getServices exDB (some "Bearer tok")).1
        = ⟨200, .obj [("success", .bool true),
            ("services", .arr ((servicesRows exDB exUserA.id).map serviceToJson))]⟩ ∧
      (∀ sv ∈ servicesRows exDB exUserA.id, sv.user_id = exUserA.id) ∧
      (∀ sv ∈ servicesRows exDB exUserA.id, sv.user_id ≠ exUserB.id) :=
  C5_services_scoped_to_user exDB (some "Bearer tok") exUserA exUserB exSession
    (by decide) rfl

/-- C6. On every successful login the response is status 200 with the raw
token and the sanitized user projection whose fields are exactly id,
email, full name and subscription tier; no `password_hash` key occurs
anywhere in the response body. -/
theorem C6_login_response_sanitized
    (bc : String → String → Bool) (now : Int) (tok : String) (db : DB)
    (req : LoginRequest) (u : User)
    (he : isFalsy req.email = false) (hp : isFalsy req.password = false)
    (hu : db.users.filter (fun u' => u'.email == req.email.getD "") = [u])
    (hbc : bc (req.password.getD "") u.password_hash = true) :
    (login bc now tok db req).1
        = ⟨200, .obj [("success", .bool true), ("token", .str tok),
            ("user", userProjection u)]⟩ ∧
      userProjection u
        = .obj [("id", .num (u.id : Int)), ("email", .str u.email),
            ("full_name", .str u.full_name),
            ("subscription_type", .str u.subscription_type)] ∧
      jsonHasKey "password_hash" (login bc now tok db req).1.body = false := by
  have h1 : (login bc now tok db req).1
      = ⟨200, .obj [("success", .bool true), ("token", .str tok),
          ("user", userProjection u)]⟩ := by
    simp [login, he, hp, hu, hbc]
  exact ⟨h1, rfl, by rw [h1]; rfl⟩

/-- C6 witness: the sanitized response at a concrete successful login. -/
theorem C6_login_response_sanitized_witness :
    (login (fun _ _ => true) exNow "newtok" exDB
        { email := some "a@x.com", password := some "pw",
          device_id := none, ip := "9.9.9.9", userAgent := none }).1
        = ⟨200, .obj [("success", .bool true), ("token", .str "newtok"),
            ("user", userProjection exUserA)]⟩ ∧
      userProjection exUserA
        = .obj [("id", .num (exUserA.id : Int)), ("email", .str exUserA.email),
            ("full_name", .str exUserA.full_name),
            ("subscription_type", .str exUserA.subscription_type)] ∧
      jsonHasKey "password_hash"
        (login (fun _ _ => true) exNow "newtok" exDB
          { email := some "a@x.com", password := some "pw",
            device_id := none, ip := "9.9.9.9", userAgent := none }).1.body
        = false :=
  C6_login_response_sanitized _ _ _ _ _ exUserA rfl rfl rfl rfl

/-- C7. On every successful login the handler appends exactly one session
row whose expiry timestamp is the issuance time plus `7 * 24 * 60 * 60 *
1000` milliseconds (7 days); the expiry does not depend on any field of
the request. -/
theorem C7_session_expiry_fixed_seven_days
    (bc : String → String → Bool) (now : Int) (tok : String) (db : DB)
    (req : LoginRequest) (u : User)
    (he : isFalsy req.email = false) (hp : isFalsy req.password = false)
    (hu : db.users.filter (fun u' => u'.email == req.email.getD "") = [u])
    (hbc : bc (req.password.getD "") u.password_hash = true) :
    (login bc now tok db req).2.1.sessions
        = db.sessions ++ [newSession now tok req u] ∧
      (newSession now tok req u).expires_at = now + 7 * 24 * 60 * 60 * 1000 ∧
      ∀ req' : LoginRequest,
        (newSession now tok req' u).expires_at
          = (newSession now tok req u).expires_at := by
  refine ⟨?_, rfl, fun _ => rfl⟩
  simp [login, he, hp, hu, hbc]

/-- C7 witness: the concrete session created at time `exNow` expires at
`exNow + 604800000`. -/
theorem C7_session_expiry_fixed_seven_days_witness :
    (login (fun _ _ => true) exNow "newtok" exDB
        { email := some "a@x.com", password := some "pw",
          device_id := none, ip := "9.9.9.9", userAgent := none }).2.1.sessions
        = exDB.sessions ++ [newSession exNow "newtok"
            { email := some "a@x.com", password := some "pw",
              device_id := none, ip := "9.9.9.9", userAgent := none } exUserA] ∧
      (newSession exNow "newtok"
          { email := some "a@x.com", password := some "pw",
            device_id := none, ip := "9.9.9.9", userAgent := none }
          exUserA).expires_at
        = exNow + 7 * 24 * 60 * 60 * 1000 ∧
      ∀ req' : LoginRequest,
        (newSession exNow "newtok" req' exUserA).expires_at
          = (newSession exNow "newtok"
              { email := some "a@x.com", password := some "pw",
                device_id := none, ip := "9.9.9.9", userAgent := none }
              exUserA).expires_at :=
  C7_session_expiry_fixed_seven_days _ _ _ _ _ exUserA rfl rfl rfl rfl

/-- C8. When the email field or the password field of a login request is
missing (or empty, which JavaScript treats the same), the handler answers
400 immediately: the store is untouched and the list of performed store
operations is empty, so no lookup and no session creation happened. -/
theorem C8_login_validation_before_store
    (bc : String → String → Bool) (now : Int) (tok : String) (db : DB)
    (req : LoginRequest)
    (h : isFalsy req.email = true ∨ isFalsy req.password = true) :
    login bc now tok db req
      = (⟨400, errBody "Email e senha são obrigatórios"⟩, db, []) := by
  rcases h with h | h <;> simp [login, h]

/-- C8 witness: a request with no password is refused with 400 and no
store operation. -/
theorem C8_login_validation_before_store_witness :
    login (fun _ _ => true) exNow "newtok" exDB
        { email := some "a@x.com", password := none,
          device_id := none, ip := "9.9.9.9", userAgent := none }
      = (⟨400, errBody "Email e senha são obrigatórios"⟩, exDB, []) :=
  C8_login_validation_before_store _ _ _ _ _ (Or.inr rfl)

/-- C9. A successful pass of `authenticateToken` mutates nothing: the
store it hands back is the one it received (so every stored session is
field-for-field unchanged) and every store operation it performed is a
read; the resolved user and session are only attached to the result. -/
theorem C9_auth_success_no_mutation (db : DB) (h : Option String)
    (u : Option User) (s : Session)
    (_hs : (authenticateToken db h).1 = .success u s) :
    (authenticateToken db h).2.1 = db ∧
      ∀ op ∈ (authenticateToken db h).2.2, op.isMutation = false :=
  ⟨authenticateToken_db_unchanged db h, authenticateToken_ops_readonly db h⟩

/-- C9 witness: the concrete successful authentication leaves the store
unchanged and performed only reads. -/
theorem C9_auth_success_no_mutation_witness :
    (authenticateToken exDB (some "Bearer tok")).2.1 = exDB ∧
      ∀ op ∈ (authenticateToken exDB (some "Bearer tok")).2.2,
        op.isMutation = false :=
  C9_auth_success_no_mutation exDB (some "Bearer tok") (some exUserA)
    exSession rfl

/-- C10. The authenticator never inspects the scheme word of the
Authorization header: for any header built from an arbitrary space-free
first word `w` followed by a space and a token `t` that matches exactly
one active session, authentication succeeds, whatever `w` is; and any
header that is a single space-free word yields the missing-credential
401 response. -/
theorem C10_scheme_word_ignored (db : DB) (w t : List Char) (s : Session)
    (hw : ∀ c ∈ w, c ≠ ' ') (ht : ∀ c ∈ t, c ≠ ' ') (htne : t ≠ [])
    (hf : db.sessions.filter
      (fun s' => s'.session_token == String.mk t && s'.is_active) = [s]) :
    (authenticateToken db (some (String.mk (w ++ ' ' :: t)))).1
        = .success (db.users.find? (fun u => u.id == s.user_id)) s ∧
      ∀ w' : List Char, (∀ c ∈ w', c ≠ ' ') →
        (authenticateToken db (some (String.mk w'))).1
          = .fail ⟨401, errBody "Token de acesso necessário"⟩ := by
  have hsplit : splitChar ' ' (String.mk (w ++ ' ' :: t)).data = [w, t] := by
    show splitChar ' ' (w ++ ' ' :: t) = [w, t]
    rw [splitChar_append t hw, splitChar_no_sep ht]
  constructor
  · have hE : extractToken (some (String.mk (w ++ ' ' :: t)))
        = some (String.mk t) := by
      cases t with
      | nil => exact absurd rfl htne
      | cons a l =>
        simp only [extractToken]
        rw [hsplit]
        rfl
    simp [authenticateToken, hE, hf]
  · intro w' hw'
    have hE' : extractToken (some (String.mk w')) = none := by
      simp only [extractToken]
      rw [splitChar_no_sep hw']
      rfl
    simp [authenticateToken, hE']

/-- C10 witness: with the concrete store, the scheme word `Basic` is
accepted in place of `Bearer`, and a single-word header is treated as a
missing credential. -/
theorem C10_scheme_word_ignored_witness :
    (authenticateToken exDB (some "Basic tok")).1
        = .success (some exUserA) exSession ∧
      (authenticateToken exDB (some "justoneword")).1
        = .fail ⟨401, errBody "Token de acesso necessário"⟩ := by
  have h := C10_scheme_word_ignored exDB "Basic".data "tok".data exSession
    (by decide) (by decide) (by decide) rfl
  exact ⟨h.1, h.2 "justoneword".data (by decide)⟩

end MultiProfile
